import Mathlib

/-!
Verification of the AI-posture-corrector repository core against its
natural-language specification.

The Python sources are shallowly embedded:
  * pure 3D geometry (`calculate_angle_3d`, `calculate_3d_angle`,
    `calculate_angle_between_vectors`, `get_posture_angles`) over `ℝ`,
    with landmark coordinates modelled as rationals cast into `ℝ`;
  * the scorer (`compute_score`), the slouch timer of the monitor loop and
    the calibration loop of `calibrate_posture.py` over `ℚ` (Python floats
    modelled as exact rationals), with the camera / pose-model / UI
    collaborators abstracted into per-frame observation records.
-/

open scoped Classical

/-! ## Shared 3D geometry (numpy vector helpers) -/

/-- A 3D point, as the `[x, y, z]` float lists in the Python sources. -/
abbrev Point3 := ℝ × ℝ × ℝ

/-- Componentwise subtraction, `np.array(a) - np.array(b)`. -/
def sub3 (a b : Point3) : Point3 := (a.1 - b.1, a.2.1 - b.2.1, a.2.2 - b.2.2)

/-- `np.dot` for 3-vectors. -/
def dot3 (u v : Point3) : ℝ := u.1 * v.1 + u.2.1 * v.2.1 + u.2.2 * v.2.2

/-- `np.linalg.norm` for 3-vectors: the square root of the sum of squares. -/
noncomputable def norm3 (u : Point3) : ℝ := Real.sqrt (dot3 u u)

/-- Componentwise division of a vector by a scalar, `v / np.linalg.norm(v)`. -/
noncomputable def div3 (v : Point3) (c : ℝ) : Point3 := (v.1 / c, v.2.1 / c, v.2.2 / c)

/-- `np.clip x lo hi` = `min (max x lo) hi`. -/
noncomputable def clip (x lo hi : ℝ) : ℝ := min (max x lo) hi

/-- `np.degrees`: radians to degrees. -/
noncomputable def degrees (x : ℝ) : ℝ := x * 180 / Real.pi

/-! ## MediaPipe landmark model

A per-frame landmark map assigns to each named body part a normalized 3D
point plus a visibility confidence.  Coordinates are modelled as exact
rationals (Python floats) and cast into `ℝ` when geometry is computed. -/

/-- The MediaPipe pose-landmark names used by the sources. -/
inductive LandmarkName where
  | LEFT_EAR | RIGHT_EAR
  | LEFT_SHOULDER | RIGHT_SHOULDER
  | LEFT_HIP | RIGHT_HIP
  deriving DecidableEq

/-- One landmark estimate: normalized coordinates and a visibility score. -/
structure Landmark where
  x : ℚ
  y : ℚ
  z : ℚ
  visibility : ℚ
  deriving DecidableEq

/-- A rational 3D point (the `[x, y, z]` list built from a landmark). -/
abbrev QPoint3 := ℚ × ℚ × ℚ

/-- Cast a rational point into the real plane for angle computation. -/
def toR3 (p : QPoint3) : Point3 := ((p.1 : ℝ), (p.2.1 : ℝ), (p.2.2 : ℝ))

namespace posture_utils

/-- `posture_utils.get_landmark`: the `[x, y, z]` coordinates of a landmark,
or `None` when its visibility is below `0.5`. -/
def get_landmark (landmarks : LandmarkName → Landmark) (part_name : LandmarkName) :
    Option QPoint3 :=
  let landmark := landmarks part_name
  if landmark.visibility < 1/2 then none
  else some (landmark.x, landmark.y, landmark.z)

/-- `posture_utils.calculate_angle_3d`: the angle at vertex `b` between rays
`b→a` and `b→c`; returns `none` (Python `None`) when either vector has zero
length, otherwise the clamped arc-cosine of the normalized dot product,
in degrees. -/
noncomputable def calculate_angle_3d (a b c : Point3) : Option ℝ :=
  let v1 := sub3 a b
  let v2 := sub3 c b
  let dot_product := dot3 v1 v2
  let magnitude_v1 := norm3 v1
  let magnitude_v2 := norm3 v2
  if magnitude_v1 = 0 ∨ magnitude_v2 = 0 then none
  else
    let cosine_angle := clip (dot_product / (magnitude_v1 * magnitude_v2)) (-1) 1
    some (degrees (Real.arccos cosine_angle))

/-- Python `left if left else right` on optional points (a `[x,y,z]` list is
always truthy, so this is exactly left-biased choice). -/
def pick (l r : Option QPoint3) : Option QPoint3 :=
  match l with
  | some v => some v
  | none => r

/-- The ear point chosen by `get_posture_angles`:
`left_ear if left_ear else right_ear`. -/
def selected_ear (landmarks : LandmarkName → Landmark) : Option QPoint3 :=
  pick (get_landmark landmarks .LEFT_EAR) (get_landmark landmarks .RIGHT_EAR)

/-- The shoulder point chosen by `get_posture_angles`:
`left_shoulder if left_shoulder else right_shoulder`. -/
def selected_shoulder (landmarks : LandmarkName → Landmark) : Option QPoint3 :=
  pick (get_landmark landmarks .LEFT_SHOULDER) (get_landmark landmarks .RIGHT_SHOULDER)

/-- The hip point chosen by `get_posture_angles`:
`left_hip if left_hip else right_hip`. -/
def selected_hip (landmarks : LandmarkName → Landmark) : Option QPoint3 :=
  pick (get_landmark landmarks .LEFT_HIP) (get_landmark landmarks .RIGHT_HIP)

/-- The dictionary returned by `get_posture_angles`. -/
structure PostureAngles where
  back_curve : Option ℝ
  torso_recline : Option ℝ
  neck_protraction : Option ℝ

/-- `posture_utils.get_posture_angles`: choose ear/shoulder/hip (left point if
visible, else right point), then compute the three posture angles; the
vertical reference points are `[p.x, p.y + 1.0, p.z]`. -/
noncomputable def get_posture_angles (landmarks : LandmarkName → Landmark) :
    PostureAngles :=
  match selected_ear landmarks, selected_shoulder landmarks, selected_hip landmarks with
  | some ear, some shoulder, some hip =>
    let vertical_vector_point : QPoint3 := (hip.1, hip.2.1 + 1, hip.2.2)
    let back_curve := calculate_angle_3d (toR3 hip) (toR3 shoulder) (toR3 ear)
    let torso_recline :=
      calculate_angle_3d (toR3 vertical_vector_point) (toR3 hip) (toR3 shoulder)
    let vertical_vector_point_shoulder : QPoint3 :=
      (shoulder.1, shoulder.2.1 + 1, shoulder.2.2)
    let neck_protraction :=
      calculate_angle_3d (toR3 vertical_vector_point_shoulder) (toR3 shoulder) (toR3 ear)
    { back_curve := back_curve, torso_recline := torso_recline,
      neck_protraction := neck_protraction }
  | _, _, _ => { back_curve := none, torso_recline := none, neck_protraction := none }

end posture_utils

namespace monitor_posture

/-- `monitor_posture.calculate_3d_angle`: same formula, but returns `0.0`
when the product of the two vector norms is zero. -/
noncomputable def calculate_3d_angle (a b c : Point3) : ℝ :=
  let ba := sub3 a b
  let bc := sub3 c b
  let denom := norm3 ba * norm3 bc
  if denom = 0 then 0
  else
    let cosine_angle := clip (dot3 ba bc / denom) (-1) 1
    degrees (Real.arccos cosine_angle)

/-- `BAD_DEGREE_THRESHOLD = 12.0`. -/
def BAD_DEGREE_THRESHOLD : ℚ := 12

/-- `ALERT_TIME = 5.0` seconds. -/
def ALERT_TIME : ℚ := 5

/-- The current/baseline angle dictionaries of the monitor,
with keys `neck` and `upper_back`. -/
structure Angles2 where
  neck : ℚ
  upper_back : ℚ
  deriving DecidableEq

/-- `monitor_posture.compute_score`: weighted, clipped deviation penalty,
clamped to `[0, 100]`.  Weights `w = {neck: 0.6, upper_back: 0.4}`, per-axis
deviation capped at `30.0`, penalty `clipped * (w[key] * 1.5)`. -/
def compute_score (current baseline : Angles2) : ℚ :=
  let w_neck : ℚ := 6/10
  let w_upper_back : ℚ := 4/10
  let score0 : ℚ := 100
  let diff_neck := |current.neck - baseline.neck|
  let clipped_neck := min diff_neck 30
  let score1 := score0 - clipped_neck * (w_neck * (3/2))
  let diff_upper_back := |current.upper_back - baseline.upper_back|
  let clipped_upper_back := min diff_upper_back 30
  let score2 := score1 - clipped_upper_back * (w_upper_back * (3/2))
  max 0 (min 100 score2)

/-- `bad_now = any(abs(current[k] - baseline[k]) > BAD_DEGREE_THRESHOLD
for k in baseline)`: the per-frame `is_slouching` boolean of the monitor. -/
def bad_now (current baseline : Angles2) : Bool :=
  decide (BAD_DEGREE_THRESHOLD < |current.neck - baseline.neck|) ||
    decide (BAD_DEGREE_THRESHOLD < |current.upper_back - baseline.upper_back|)

/-- One frame of the slouch timer: updates `bad_since` and computes
`elapsed`, from the monitor loop:
`if bad_now: (if bad_since is None: bad_since = now); elapsed = now - bad_since`
`else: bad_since = None; elapsed = 0.0`.
Both `time.time()` calls of one frame are modelled as the same instant `t`. -/
def slouch_step (bad_since : Option ℚ) (bad : Bool) (t : ℚ) : Option ℚ × ℚ :=
  if bad then
    match bad_since with
    | none => (some t, t - t)
    | some t0 => (some t0, t - t0)
  else (none, 0)

/-- The alert condition of the monitor loop:
`if bad_since and elapsed > ALERT_TIME`. -/
def slouch_alert (st : Option ℚ × ℚ) : Bool :=
  st.1.isSome && decide (ALERT_TIME < st.2)

/-- The slouch timer state after a list of frames, each frame being a
timestamp (`time.time()`) together with that frame's `is_slouching` value. -/
def slouch_run (bad_since : Option ℚ) : List (ℚ × Bool) → Option ℚ
  | [] => bad_since
  | f :: fs => slouch_run (slouch_step bad_since f.2 f.1).1 fs

end monitor_posture

namespace corrector

/-- `AI-Posture-Corrector/python/posture_utils.calculate_angle_between_vectors`:
normalizes both vectors to unit length, then takes the clamped arc-cosine of
their dot product, in degrees. -/
noncomputable def calculate_angle_between_vectors (v1 v2 : Point3) : ℝ :=
  let v1_u := div3 v1 (norm3 v1)
  let v2_u := div3 v2 (norm3 v2)
  let dot_prod := dot3 v1_u v2_u
  degrees (Real.arccos (clip dot_prod (-1) 1))

/-- `AI-Posture-Corrector/python/posture_utils.get_landmark`: coordinates if
visibility is at least `0.5`, else `None`. -/
def get_landmark (landmarks : LandmarkName → Landmark) (part_name : LandmarkName) :
    Option QPoint3 :=
  let lm := landmarks part_name
  if lm.visibility < 1/2 then none
  else some (lm.x, lm.y, lm.z)

/-- The dictionary returned by the nested `get_posture_angles`. -/
structure Angles3 where
  torso_recline : Option ℝ
  neck_protraction : Option ℝ
  back_curve : Option ℝ

/-- `AI-Posture-Corrector/python/posture_utils.get_posture_angles`: try the
whole left-side triple; if any left point is missing, retry with the whole
right-side triple; then compute the three angles against the fixed upward
vector `(0, -1, 0)` (image y grows downward). -/
noncomputable def get_posture_angles (landmarks : LandmarkName → Landmark) : Angles3 :=
  let hipL := get_landmark landmarks .LEFT_HIP
  let shoulderL := get_landmark landmarks .LEFT_SHOULDER
  let earL := get_landmark landmarks .LEFT_EAR
  let (hip?, shoulder?, ear?) :=
    if hipL = none ∨ shoulderL = none ∨ earL = none then
      (get_landmark landmarks .RIGHT_HIP, get_landmark landmarks .RIGHT_SHOULDER,
       get_landmark landmarks .RIGHT_EAR)
    else (hipL, shoulderL, earL)
  match hip?, shoulder?, ear? with
  | some hip, some shoulder, some ear =>
    let vec_vertical : Point3 := (0, -1, 0)
    let vec_torso := sub3 (toR3 shoulder) (toR3 hip)
    let vec_neck := sub3 (toR3 ear) (toR3 shoulder)
    let vec_shoulder_to_ear := sub3 (toR3 ear) (toR3 shoulder)
    let vec_shoulder_to_hip := sub3 (toR3 hip) (toR3 shoulder)
    let angle_torso := calculate_angle_between_vectors vec_vertical vec_torso
    let angle_neck := calculate_angle_between_vectors vec_vertical vec_neck
    let angle_back := calculate_angle_between_vectors vec_shoulder_to_ear vec_shoulder_to_hip
    { torso_recline := some angle_torso, neck_protraction := some angle_neck,
      back_curve := some angle_back }
  | _, _, _ => { torso_recline := none, neck_protraction := none, back_curve := none }

end corrector

namespace calibrate_posture

/-- `STABILITY_WINDOW = 30`: capacity of each rolling angle deque. -/
def STABILITY_WINDOW : ℕ := 30

/-- `STABILITY_THRESHOLD = 2.5` degrees of jitter. -/
def STABILITY_THRESHOLD : ℚ := 5/2

/-- `STABLE_FRAMES_REQUIRED = 75` consecutive stable frames. -/
def STABLE_FRAMES_REQUIRED : ℕ := 75

/-- `calibrate_posture.is_point_in_ellipse` on integer pixel coordinates. -/
def is_point_in_ellipse (point center axes : ℤ × ℤ) : Bool :=
  if axes.1 = 0 ∨ axes.2 = 0 then false
  else decide
    ((((point.1 - center.1) ^ 2 : ℚ) / (axes.1 ^ 2 : ℚ)) +
      (((point.2 - center.2) ^ 2 : ℚ) / (axes.2 ^ 2 : ℚ)) ≤ 1)

/-- One frame's angle dictionary, as produced by `calculate_angles`. -/
structure AngleTriple where
  torso_recline : ℚ
  neck_protraction : ℚ
  back_curve : ℚ
  deriving DecidableEq

/-- `np.mean` of a list of rationals. -/
def np_mean (xs : List ℚ) : ℚ := xs.sum / xs.length

/-- The population variance `np.std(xs) ** 2`. -/
def np_var (xs : List ℚ) : ℚ :=
  (xs.map (fun x => (x - np_mean xs) ^ 2)).sum / xs.length

/-- The comparison `np.std xs < t` of the source, encoded without square
roots: for `0 ≤ t`, `Real.sqrt (np_var xs) < t ↔ np_var xs < t ^ 2`, so the
jitter test `np.std(angle_history[key]) < STABILITY_THRESHOLD` is embedded
as a variance comparison against the squared threshold. -/
def std_lt (xs : List ℚ) (t : ℚ) : Bool := decide (np_var xs < t ^ 2)

/-- `deque(maxlen = STABILITY_WINDOW).append`: push on the right, evicting
the oldest element once the window is full. -/
def dq_append (xs : List ℚ) (x : ℚ) : List ℚ :=
  if xs.length < STABILITY_WINDOW then xs ++ [x] else xs.tail ++ [x]

/-- One per-frame observation of the calibration loop.  The camera,
MediaPipe processing, `get_pose_landmarks` and `calculate_angles` (the last
two are imported by `calibrate_posture.py` but absent from the sources) are
external collaborators, so each frame carries their per-frame outcomes: pose
detection, the visibility flag, the three `is_point_in_ellipse` results for
hip/shoulder/ear against the guide oval, the computed `AngleTriple`, and
whether ESC was pressed during this iteration. -/
structure FrameObs where
  pose_detected : Bool
  visible : Bool
  hip_in : Bool
  shoulder_in : Bool
  ear_in : Bool
  angles : AngleTriple
  esc : Bool
  deriving DecidableEq

/-- The mutable state of `run_calibration`'s loop: the three rolling angle
deques, the consecutive-stable-frame counter, the accumulation buffer, and
the `is_in_position` flag. -/
structure CalState where
  hist_torso : List ℚ
  hist_neck : List ℚ
  hist_back : List ℚ
  stable_frames_count : ℕ
  calibration_data : List AngleTriple
  is_in_position : Bool
  deriving DecidableEq

/-- The loop state before the first frame. -/
def initState : CalState :=
  { hist_torso := [], hist_neck := [], hist_back := [],
    stable_frames_count := 0, calibration_data := [], is_in_position := false }

/-- One iteration of the calibration loop body (frame processing only;
the ESC / completion break tests are in `calLoop`):
position check first (resetting the counter and the accumulation buffer when
an anatomical point leaves the oval), then the angle-history append, then,
once the torso window holds `STABILITY_WINDOW` entries, the jitter test,
which either increments the counter and records the frame's angles or resets
both. -/
def calStep (s : CalState) (f : FrameObs) : CalState :=
  if f.pose_detected then
    if f.visible then
      if f.hip_in && f.shoulder_in && f.ear_in then
        let s1 : CalState :=
          { s with is_in_position := true,
                   hist_torso := dq_append s.hist_torso f.angles.torso_recline,
                   hist_neck := dq_append s.hist_neck f.angles.neck_protraction,
                   hist_back := dq_append s.hist_back f.angles.back_curve }
        if s1.hist_torso.length = STABILITY_WINDOW then
          if std_lt s1.hist_torso STABILITY_THRESHOLD &&
              std_lt s1.hist_neck STABILITY_THRESHOLD &&
              std_lt s1.hist_back STABILITY_THRESHOLD then
            { s1 with stable_frames_count := s1.stable_frames_count + 1,
                      calibration_data := s1.calibration_data ++ [f.angles] }
          else
            { s1 with stable_frames_count := 0, calibration_data := [] }
        else s1
      else { s with is_in_position := false, stable_frames_count := 0,
                    calibration_data := [] }
    else { s with is_in_position := false }
  else { s with is_in_position := false }

/-- The calibration `while` loop over a finite frame stream: after each
frame, break on ESC, then break once `stable_frames_count` has reached
`STABLE_FRAMES_REQUIRED`; an exhausted stream is `ret == False`. -/
def calLoop (s : CalState) : List FrameObs → CalState
  | [] => s
  | f :: fs =>
    let s1 := calStep s f
    if f.esc then s1
    else if STABLE_FRAMES_REQUIRED ≤ s1.stable_frames_count then s1
    else calLoop s1 fs

/-- Whether the loop exits by `break` (ESC or stability achieved) somewhere
inside the stream, rather than by exhausting it. -/
def calBreaks (s : CalState) : List FrameObs → Bool
  | [] => false
  | f :: fs =>
    let s1 := calStep s f
    if f.esc then true
    else if STABLE_FRAMES_REQUIRED ≤ s1.stable_frames_count then true
    else calBreaks s1 fs

/-- `calibrate_posture.run_calibration` on a frame stream: run the loop, fail
(`None`, nothing persisted) when fewer than `STABLE_FRAMES_REQUIRED` samples
were accumulated, otherwise produce the baseline as the per-key `np.mean`
over `calibration_data`. -/
def run_calibration (frames : List FrameObs) : Option AngleTriple :=
  let s := calLoop initState frames
  if s.calibration_data.length < STABLE_FRAMES_REQUIRED then none
  else some
    { torso_recline := np_mean (s.calibration_data.map (·.torso_recline)),
      neck_protraction := np_mean (s.calibration_data.map (·.neck_protraction)),
      back_curve := np_mean (s.calibration_data.map (·.back_curve)) }

/-- The contents of `posture_baseline.json` after a calibration run that
started with contents `file0`: `json.dump` happens only on success. -/
def run_calibration_file (frames : List FrameObs) (file0 : Option AngleTriple) :
    Option AngleTriple :=
  match run_calibration frames with
  | none => file0
  | some b => some b

/-- A frame on which everything succeeds: pose detected, landmarks visible,
all three points inside the guide oval, no ESC, measuring `A`. -/
def goodFrame (A : AngleTriple) : FrameObs :=
  { pose_detected := true, visible := true, hip_in := true, shoulder_in := true,
    ear_in := true, angles := A, esc := false }

/-- A frame whose hip point has left the guide oval: the loop resets the
stable counter and the accumulation buffer. -/
def resetFrame : FrameObs :=
  { pose_detected := true, visible := true, hip_in := false, shoulder_in := true,
    ear_in := true, angles := { torso_recline := 0, neck_protraction := 0, back_curve := 0 },
    esc := false }

/-- A frame on which the user presses ESC. -/
def escFrame : FrameObs :=
  { pose_detected := false, visible := false, hip_in := false, shoulder_in := false,
    ear_in := false, angles := { torso_recline := 0, neck_protraction := 0, back_curve := 0 },
    esc := true }

/-- Proof-state predicate: the last `k` entries of every rolling window are
the corresponding components of `A`. -/
def HistSuffix (s : CalState) (A : AngleTriple) (k : ℕ) : Prop :=
  List.replicate k A.torso_recline <:+ s.hist_torso ∧
  List.replicate k A.neck_protraction <:+ s.hist_neck ∧
  List.replicate k A.back_curve <:+ s.hist_back

/-- Proof-state predicate: no rolling window exceeds its deque capacity. -/
def HistBound (s : CalState) : Prop :=
  s.hist_torso.length ≤ STABILITY_WINDOW ∧
  s.hist_neck.length ≤ STABILITY_WINDOW ∧
  s.hist_back.length ≤ STABILITY_WINDOW

end calibrate_posture

/-! ## Concrete landmark maps used as test inputs -/

/-- A frame in which the left shoulder is occluded (visibility `0`) while
the left ear, the left hip and the whole right side are fully visible; left
and right landmarks carry different coordinates (`x = 0.1` vs `x = 0.9`).
The right shoulder is strictly more visible than the left one. -/
def mixLM : LandmarkName → Landmark
  | .LEFT_EAR => { x := 1/10, y := 2/10, z := 0, visibility := 1 }
  | .LEFT_SHOULDER => { x := 2/10, y := 5/10, z := 0, visibility := 0 }
  | .LEFT_HIP => { x := 1/10, y := 8/10, z := 0, visibility := 1 }
  | .RIGHT_EAR => { x := 9/10, y := 2/10, z := 0, visibility := 1 }
  | .RIGHT_SHOULDER => { x := 9/10, y := 5/10, z := 0, visibility := 1 }
  | .RIGHT_HIP => { x := 9/10, y := 8/10, z := 0, visibility := 1 }

/-- A frame in which the whole left side is invisible and the whole right
side is fully visible. -/
def rightOnlyLM : LandmarkName → Landmark
  | .LEFT_EAR => { x := 1/10, y := 2/10, z := 0, visibility := 0 }
  | .LEFT_SHOULDER => { x := 1/10, y := 5/10, z := 0, visibility := 0 }
  | .LEFT_HIP => { x := 1/10, y := 8/10, z := 0, visibility := 0 }
  | .RIGHT_EAR => { x := 9/10, y := 2/10, z := 0, visibility := 1 }
  | .RIGHT_SHOULDER => { x := 9/10, y := 5/10, z := 0, visibility := 1 }
  | .RIGHT_HIP => { x := 9/10, y := 8/10, z := 0, visibility := 1 }

/-- A perfectly vertical left-side body: the shoulder directly above the hip
(image y grows downward, so above means smaller y) and the ear directly
above the shoulder; the right side is invisible. -/
def vertLM : LandmarkName → Landmark
  | .LEFT_EAR => { x := 1/2, y := 1/8, z := 0, visibility := 1 }
  | .LEFT_SHOULDER => { x := 1/2, y := 1/4, z := 0, visibility := 1 }
  | .LEFT_HIP => { x := 1/2, y := 3/4, z := 0, visibility := 1 }
  | .RIGHT_EAR => { x := 1/2, y := 1/8, z := 0, visibility := 0 }
  | .RIGHT_SHOULDER => { x := 1/2, y := 1/4, z := 0, visibility := 0 }
  | .RIGHT_HIP => { x := 1/2, y := 3/4, z := 0, visibility := 0 }

/-! ## Lemmas: shared geometry -/

lemma dot3_comm (u v : Point3) : dot3 u v = dot3 v u := by
  simp only [dot3]; ring

lemma degrees_arccos_nonneg (x : ℝ) : 0 ≤ degrees (Real.arccos x) := by
  unfold degrees
  have h1 := Real.arccos_nonneg x
  have h2 := Real.pi_pos
  positivity

lemma degrees_arccos_le_180 (x : ℝ) : degrees (Real.arccos x) ≤ 180 := by
  unfold degrees
  have h1 := Real.arccos_le_pi x
  have h2 := Real.pi_pos
  calc Real.arccos x * 180 / Real.pi ≤ Real.pi * 180 / Real.pi := by
        apply (div_le_div_iff_of_pos_right h2).mpr
        exact mul_le_mul_of_nonneg_right h1 (by norm_num)
    _ = 180 := by field_simp

/-! ## Claims C4 and C5: the Posture Scorer -/

/-- Claim C4: for every current-angles mapping and every baseline mapping the
posture score lies in `[0, 100]`, and when the current angles equal the
baseline exactly the score is exactly `100` (with the code's threshold
configuration, the fixed weights `w = {neck: 0.6, upper_back: 0.4}` and the
deviation cap `30`). -/
theorem claim_C4 (current baseline : monitor_posture.Angles2) :
    0 ≤ monitor_posture.compute_score current baseline ∧
    monitor_posture.compute_score current baseline ≤ 100 ∧
    monitor_posture.compute_score baseline baseline = 100 := by
  refine ⟨le_max_left 0 _, max_le (by norm_num) (min_le_left _ _), ?_⟩
  simp [monitor_posture.compute_score]

/-- Claim C5 is false on the code: the scorer penalizes the back axis with
the absolute deviation, so a back angle `10°` straighter than (above)
baseline scores `94`, not the unpenalized `100` of an exact match. -/
theorem claim_C5_counterexample :
    monitor_posture.compute_score { neck := 90, upper_back := 180 } { neck := 90, upper_back := 170 } = 94 ∧
    monitor_posture.compute_score { neck := 90, upper_back := 170 } { neck := 90, upper_back := 170 } = 100 := by
  constructor <;> norm_num [monitor_posture.compute_score]

/-! ## Claim C1: degenerate geometry in the angle functions -/

/-- Claim C1 is false on the code: `monitor_posture.calculate_3d_angle`
silently returns `0.0` degrees on a degenerate input (all three points
equal, so both vectors have zero length). -/
theorem claim_C1_counterexample :
    norm3 (sub3 ((0:ℝ), (0:ℝ), (0:ℝ)) ((0:ℝ), (0:ℝ), (0:ℝ))) = 0 ∧
    monitor_posture.calculate_3d_angle ((0:ℝ), (0:ℝ), (0:ℝ)) ((0:ℝ), (0:ℝ), (0:ℝ))
      ((0:ℝ), (0:ℝ), (0:ℝ)) = 0 := by
  have h : norm3 (sub3 ((0:ℝ), (0:ℝ), (0:ℝ)) ((0:ℝ), (0:ℝ), (0:ℝ))) = 0 := by
    simp [norm3, sub3, dot3]
  refine ⟨h, ?_⟩
  unfold monitor_posture.calculate_3d_angle
  rw [if_pos (by rw [h]; ring)]

/-- Claim C1 (amended): on any input whose two vectors do not both have
positive length, `posture_utils.calculate_angle_3d` signals the degenerate
case explicitly by returning `None`, but `monitor_posture.calculate_3d_angle`
silently returns `0.0` degrees. -/
theorem claim_C1 (a b c : Point3)
    (h : norm3 (sub3 a b) = 0 ∨ norm3 (sub3 c b) = 0) :
    posture_utils.calculate_angle_3d a b c = none ∧
    monitor_posture.calculate_3d_angle a b c = 0 := by
  constructor
  · unfold posture_utils.calculate_angle_3d
    rw [if_pos h]
  · unfold monitor_posture.calculate_3d_angle
    rcases h with h | h
    · rw [if_pos (by rw [h]; ring)]
    · rw [if_pos (by rw [h]; ring)]

/-- Witness for C1 at the concrete degenerate triple `a = b = (1,2,3)`. -/
theorem claim_C1_witness :
    posture_utils.calculate_angle_3d ((1:ℝ), (2:ℝ), (3:ℝ)) ((1:ℝ), (2:ℝ), (3:ℝ))
      ((4:ℝ), (5:ℝ), (6:ℝ)) = none ∧
    monitor_posture.calculate_3d_angle ((1:ℝ), (2:ℝ), (3:ℝ)) ((1:ℝ), (2:ℝ), (3:ℝ))
      ((4:ℝ), (5:ℝ), (6:ℝ)) = 0 :=
  claim_C1 _ _ _ (Or.inl (by simp [norm3, sub3, dot3]))


/-! ## Claim C2: side selection of the Landmark Extractor -/

lemma get_landmark_visible (lm : LandmarkName → Landmark) (p : LandmarkName)
    (h : ¬ (lm p).visibility < 1/2) :
    posture_utils.get_landmark lm p = some ((lm p).x, (lm p).y, (lm p).z) := by
  simp only [posture_utils.get_landmark]
  rw [if_neg h]

lemma get_landmark_hidden (lm : LandmarkName → Landmark) (p : LandmarkName)
    (h : (lm p).visibility < 1/2) :
    posture_utils.get_landmark lm p = none := by
  simp only [posture_utils.get_landmark]
  rw [if_pos h]

/-- Claim C2 is false on the code: with the left shoulder occluded but the
left ear and hip visible, `get_posture_angles` takes the ear and hip from
the LEFT landmarks and the shoulder from the RIGHT landmark — one sample
mixes both sides, even though the right shoulder (visibility `1`) is
strictly more visible than the left one (visibility `0`). -/
theorem claim_C2_counterexample :
    posture_utils.selected_ear mixLM = some (1/10, 2/10, 0) ∧
    posture_utils.selected_shoulder mixLM = some (9/10, 5/10, 0) ∧
    posture_utils.selected_hip mixLM = some (1/10, 8/10, 0) ∧
    (mixLM .LEFT_SHOULDER).visibility < (mixLM .RIGHT_SHOULDER).visibility := by
  refine ⟨?_, ?_, ?_, by norm_num [mixLM]⟩
  · rw [posture_utils.selected_ear,
      get_landmark_visible mixLM .LEFT_EAR (by norm_num [mixLM])]
    rfl
  · rw [posture_utils.selected_shoulder,
      get_landmark_hidden mixLM .LEFT_SHOULDER (by norm_num [mixLM]),
      posture_utils.pick,
      get_landmark_visible mixLM .RIGHT_SHOULDER (by norm_num [mixLM])]
    rfl
  · rw [posture_utils.selected_hip,
      get_landmark_visible mixLM .LEFT_HIP (by norm_num [mixLM])]
    rfl

/-- Claim C2 (amended): the extractor chooses each of ear/shoulder/hip
per point, preferring the left landmark and falling back to that point's
right landmark, so sides can be mixed when the left side is only partially
visible; when no left-side point is visible (in particular when only the
right side is visible), every chosen point is the right-side one. -/
theorem claim_C2 (lm : LandmarkName → Landmark)
    (he : (lm .LEFT_EAR).visibility < 1/2)
    (hs : (lm .LEFT_SHOULDER).visibility < 1/2)
    (hh : (lm .LEFT_HIP).visibility < 1/2) :
    posture_utils.selected_ear lm = posture_utils.get_landmark lm .RIGHT_EAR ∧
    posture_utils.selected_shoulder lm = posture_utils.get_landmark lm .RIGHT_SHOULDER ∧
    posture_utils.selected_hip lm = posture_utils.get_landmark lm .RIGHT_HIP := by
  refine ⟨?_, ?_, ?_⟩
  · rw [posture_utils.selected_ear, get_landmark_hidden lm .LEFT_EAR he, posture_utils.pick]
  · rw [posture_utils.selected_shoulder, get_landmark_hidden lm .LEFT_SHOULDER hs,
      posture_utils.pick]
  · rw [posture_utils.selected_hip, get_landmark_hidden lm .LEFT_HIP hh, posture_utils.pick]

/-- Witness for C2 on a frame where only the right side is visible. -/
theorem claim_C2_witness :
    posture_utils.selected_ear rightOnlyLM = posture_utils.get_landmark rightOnlyLM .RIGHT_EAR ∧
    posture_utils.selected_shoulder rightOnlyLM =
      posture_utils.get_landmark rightOnlyLM .RIGHT_SHOULDER ∧
    posture_utils.selected_hip rightOnlyLM = posture_utils.get_landmark rightOnlyLM .RIGHT_HIP :=
  claim_C2 rightOnlyLM (by norm_num [rightOnlyLM]) (by norm_num [rightOnlyLM])
    (by norm_num [rightOnlyLM])

/-- Claim C5 (amended): the scorer applies the absolute deviation
`abs(current - baseline)` to every axis, including the back axis
(`upper_back`): a back angle above baseline by `d` is penalized exactly as
much as one below baseline by `d`, and any deviation `0 < d ≤ 30` on the
back axis strictly lowers the score below `100`. -/
theorem claim_C5 (bl : monitor_posture.Angles2) (d : ℚ) :
    monitor_posture.compute_score { neck := bl.neck, upper_back := bl.upper_back + d } bl =
      monitor_posture.compute_score { neck := bl.neck, upper_back := bl.upper_back - d } bl ∧
    (0 < d → d ≤ 30 →
      monitor_posture.compute_score { neck := bl.neck, upper_back := bl.upper_back + d } bl < 100) := by
  constructor
  · simp only [monitor_posture.compute_score, add_sub_cancel_left, sub_sub_cancel_left, abs_neg]
  · intro hd hd30
    simp only [monitor_posture.compute_score, add_sub_cancel_left, sub_self, abs_zero]
    rw [min_eq_left (by norm_num : (0:ℚ) ≤ 30), abs_of_pos hd, min_eq_left hd30]
    have e1 : (100:ℚ) - 0 * (6/10 * (3/2)) - d * (4/10 * (3/2)) < 100 := by nlinarith
    have e0 : (0:ℚ) ≤ 100 - 0 * (6/10 * (3/2)) - d * (4/10 * (3/2)) := by nlinarith
    rw [min_eq_right e1.le, max_eq_right e0]
    exact e1

/-- Witness for C5 at baseline back angle `170°` and deviation `10°`. -/
theorem claim_C5_witness :
    monitor_posture.compute_score { neck := 90, upper_back := (170:ℚ) + 10 }
        { neck := 90, upper_back := 170 } =
      monitor_posture.compute_score { neck := 90, upper_back := (170:ℚ) - 10 }
        { neck := 90, upper_back := 170 } ∧
    monitor_posture.compute_score { neck := 90, upper_back := (170:ℚ) + 10 }
      { neck := 90, upper_back := 170 } < 100 :=
  ⟨(claim_C5 { neck := 90, upper_back := 170 } 10).1,
   (claim_C5 { neck := 90, upper_back := 170 } 10).2 (by norm_num) (by norm_num)⟩

/-! ## Claim C9: symmetry and range of the angle functions -/

lemma calculate_3d_angle_range (a b c : Point3) :
    0 ≤ monitor_posture.calculate_3d_angle a b c ∧
    monitor_posture.calculate_3d_angle a b c ≤ 180 := by
  unfold monitor_posture.calculate_3d_angle
  dsimp only
  split
  · norm_num
  · exact ⟨degrees_arccos_nonneg _, degrees_arccos_le_180 _⟩

lemma calculate_angle_between_vectors_range (v1 v2 : Point3) :
    0 ≤ corrector.calculate_angle_between_vectors v1 v2 ∧
    corrector.calculate_angle_between_vectors v1 v2 ≤ 180 := by
  unfold corrector.calculate_angle_between_vectors
  exact ⟨degrees_arccos_nonneg _, degrees_arccos_le_180 _⟩

/-- Claim C9: for non-degenerate vectors `u = a - b`, `v = c - b`, all three
angle implementations are symmetric in their outer arguments and their
results lie in `[0, 180]` degrees (`calculate_angle_3d` returning an actual
angle `some θ` there). -/
theorem claim_C9 (a b c : Point3)
    (h1 : norm3 (sub3 a b) ≠ 0) (h2 : norm3 (sub3 c b) ≠ 0) :
    (posture_utils.calculate_angle_3d a b c = posture_utils.calculate_angle_3d c b a ∧
     ∃ θ, posture_utils.calculate_angle_3d a b c = some θ ∧ 0 ≤ θ ∧ θ ≤ 180) ∧
    (monitor_posture.calculate_3d_angle a b c = monitor_posture.calculate_3d_angle c b a ∧
     0 ≤ monitor_posture.calculate_3d_angle a b c ∧
     monitor_posture.calculate_3d_angle a b c ≤ 180) ∧
    (corrector.calculate_angle_between_vectors (sub3 a b) (sub3 c b) =
       corrector.calculate_angle_between_vectors (sub3 c b) (sub3 a b) ∧
     0 ≤ corrector.calculate_angle_between_vectors (sub3 a b) (sub3 c b) ∧
     corrector.calculate_angle_between_vectors (sub3 a b) (sub3 c b) ≤ 180) := by
  refine ⟨⟨?_, ?_⟩, ⟨?_, (calculate_3d_angle_range a b c).1, (calculate_3d_angle_range a b c).2⟩,
    ?_, (calculate_angle_between_vectors_range _ _).1,
    (calculate_angle_between_vectors_range _ _).2⟩
  · unfold posture_utils.calculate_angle_3d
    rw [if_neg (not_or.mpr ⟨h1, h2⟩), if_neg (not_or.mpr ⟨h2, h1⟩),
      dot3_comm (sub3 c b) (sub3 a b), mul_comm (norm3 (sub3 c b)) (norm3 (sub3 a b))]
  · unfold posture_utils.calculate_angle_3d
    rw [if_neg (not_or.mpr ⟨h1, h2⟩)]
    exact ⟨_, rfl, degrees_arccos_nonneg _, degrees_arccos_le_180 _⟩
  · unfold monitor_posture.calculate_3d_angle
    rw [if_neg (mul_ne_zero h1 h2), if_neg (mul_ne_zero h2 h1),
      dot3_comm (sub3 c b) (sub3 a b), mul_comm (norm3 (sub3 c b)) (norm3 (sub3 a b))]
  · unfold corrector.calculate_angle_between_vectors
    dsimp only
    rw [dot3_comm (div3 (sub3 c b) (norm3 (sub3 c b))) (div3 (sub3 a b) (norm3 (sub3 a b)))]

/-- Witness for C9 at the right-angle triple `a = (1,0,0)`, `b = 0`,
`c = (0,1,0)`. -/
theorem claim_C9_witness :
    (posture_utils.calculate_angle_3d ((1:ℝ), (0:ℝ), (0:ℝ)) ((0:ℝ), (0:ℝ), (0:ℝ))
        ((0:ℝ), (1:ℝ), (0:ℝ)) =
      posture_utils.calculate_angle_3d ((0:ℝ), (1:ℝ), (0:ℝ)) ((0:ℝ), (0:ℝ), (0:ℝ))
        ((1:ℝ), (0:ℝ), (0:ℝ))) ∧
    ∃ θ, posture_utils.calculate_angle_3d ((1:ℝ), (0:ℝ), (0:ℝ)) ((0:ℝ), (0:ℝ), (0:ℝ))
        ((0:ℝ), (1:ℝ), (0:ℝ)) = some θ ∧ 0 ≤ θ ∧ θ ≤ 180 := by
  have h1 : norm3 (sub3 ((1:ℝ), (0:ℝ), (0:ℝ)) ((0:ℝ), (0:ℝ), (0:ℝ))) ≠ 0 := by
    simp [norm3, sub3, dot3]
  have h2 : norm3 (sub3 ((0:ℝ), (1:ℝ), (0:ℝ)) ((0:ℝ), (0:ℝ), (0:ℝ))) ≠ 0 := by
    simp [norm3, sub3, dot3]
  exact (claim_C9 _ _ _ h1 h2).1

/-! ## Claim C7: direction of the synthetic vertical reference -/

lemma norm3_y_axis (p : ℝ) (hp : 0 ≤ p) : norm3 ((0:ℝ), p, (0:ℝ)) = p := by
  unfold norm3
  have h : dot3 ((0:ℝ), p, (0:ℝ)) ((0:ℝ), p, (0:ℝ)) = p * p := by
    simp [dot3]
  rw [h, Real.sqrt_mul_self hp]

lemma norm3_neg_y_axis (p : ℝ) (hp : 0 ≤ p) : norm3 ((0:ℝ), -p, (0:ℝ)) = p := by
  unfold norm3
  have h : dot3 ((0:ℝ), -p, (0:ℝ)) ((0:ℝ), -p, (0:ℝ)) = p * p := by
    simp [dot3]
  rw [h, Real.sqrt_mul_self hp]

lemma degrees_pi : degrees Real.pi = 180 := by
  unfold degrees
  rw [mul_comm, mul_div_assoc, div_self Real.pi_ne_zero, mul_one]

/-- On opposite rays along the image's y axis — `a` below `b` by `p`, `c`
above `b` by `q` — `calculate_angle_3d` yields `180` degrees. -/
lemma calculate_angle_3d_opposite_rays (a b c : Point3) (p q : ℝ)
    (hp : 0 < p) (hq : 0 < q)
    (hu : sub3 a b = ((0:ℝ), p, (0:ℝ))) (hv : sub3 c b = ((0:ℝ), -q, (0:ℝ))) :
    posture_utils.calculate_angle_3d a b c = some 180 := by
  have hnu : norm3 (sub3 a b) = p := by rw [hu]; exact norm3_y_axis p hp.le
  have hnv : norm3 (sub3 c b) = q := by rw [hv]; exact norm3_neg_y_axis q hq.le
  have hdot : dot3 (sub3 a b) (sub3 c b) = -(p * q) := by
    rw [hu, hv]; simp [dot3]
  unfold posture_utils.calculate_angle_3d
  dsimp only
  rw [if_neg (not_or.mpr ⟨by rw [hnu]; exact hp.ne', by rw [hnv]; exact hq.ne'⟩)]
  rw [hnu, hnv, hdot]
  have hpq : p * q ≠ 0 := (mul_pos hp hq).ne'
  have hcos : -(p * q) / (p * q) = -1 := by field_simp
  have hclip : clip (-1 : ℝ) (-1) 1 = -1 := by
    unfold clip
    rw [max_self, min_eq_left (by norm_num : (-1:ℝ) ≤ 1)]
  rw [hcos, hclip, Real.arccos_neg_one, degrees_pi]

/-- Two parallel downward y-axis vectors enclose `0` degrees according to
`calculate_angle_between_vectors`. -/
lemma calculate_angle_between_vectors_parallel (p q : ℝ) (hp : 0 < p) (hq : 0 < q) :
    corrector.calculate_angle_between_vectors ((0:ℝ), -p, (0:ℝ)) ((0:ℝ), -q, (0:ℝ)) = 0 := by
  unfold corrector.calculate_angle_between_vectors
  dsimp only
  rw [norm3_neg_y_axis p hp.le, norm3_neg_y_axis q hq.le]
  have hu : div3 ((0:ℝ), -p, (0:ℝ)) p = ((0:ℝ), -1, (0:ℝ)) := by
    simp [div3, neg_div, div_self hp.ne']
  have hv : div3 ((0:ℝ), -q, (0:ℝ)) q = ((0:ℝ), -1, (0:ℝ)) := by
    simp [div3, neg_div, div_self hq.ne']
  rw [hu, hv]
  have hdot : dot3 ((0:ℝ), -1, (0:ℝ)) ((0:ℝ), -1, (0:ℝ)) = 1 := by
    simp [dot3]
  rw [hdot]
  have hclip : clip (1 : ℝ) (-1) 1 = 1 := by
    unfold clip
    rw [max_eq_left (by norm_num : (-1:ℝ) ≤ 1), min_self]
  rw [hclip, Real.arccos_one]
  unfold degrees
  rw [zero_mul, zero_div]

/-- Claim C7 (code bug): on a perfectly vertical torso with the shoulder
directly above the hip in image space (`vertLM`), the top-level
`get_posture_angles` reports `torso_recline = 180°`, not `0°`: its synthetic
reference point is offset by `+1.0` in y, which points downward in image
space, although the code's own comments describe it as a point "up" from the
hip and the sibling implementation (which uses the upward vector `(0,-1,0)`)
reports `0°` on the same geometry. -/
theorem claim_C7_eval :
    (posture_utils.get_posture_angles vertLM).torso_recline = some 180 ∧
    (corrector.get_posture_angles vertLM).torso_recline = some 0 := by
  constructor
  · have he : posture_utils.selected_ear vertLM = some (1/2, 1/8, 0) := by
      rw [posture_utils.selected_ear,
        get_landmark_visible vertLM .LEFT_EAR (by norm_num [vertLM])]
      rfl
    have hs : posture_utils.selected_shoulder vertLM = some (1/2, 1/4, 0) := by
      rw [posture_utils.selected_shoulder,
        get_landmark_visible vertLM .LEFT_SHOULDER (by norm_num [vertLM])]
      rfl
    have hh : posture_utils.selected_hip vertLM = some (1/2, 3/4, 0) := by
      rw [posture_utils.selected_hip,
        get_landmark_visible vertLM .LEFT_HIP (by norm_num [vertLM])]
      rfl
    unfold posture_utils.get_posture_angles
    rw [he, hs, hh]
    dsimp only
    apply calculate_angle_3d_opposite_rays _ _ _ 1 (1/2) (by norm_num) (by norm_num)
    · simp only [toR3, sub3, Prod.mk.injEq]
      push_cast
      norm_num
    · simp only [toR3, sub3, Prod.mk.injEq]
      push_cast
      norm_num
  · have gh : corrector.get_landmark vertLM .LEFT_HIP = some (1/2, 3/4, 0) := by
      simp only [corrector.get_landmark, vertLM]
      rw [if_neg (by norm_num)]
    have gs : corrector.get_landmark vertLM .LEFT_SHOULDER = some (1/2, 1/4, 0) := by
      simp only [corrector.get_landmark, vertLM]
      rw [if_neg (by norm_num)]
    have ge : corrector.get_landmark vertLM .LEFT_EAR = some (1/2, 1/8, 0) := by
      simp only [corrector.get_landmark, vertLM]
      rw [if_neg (by norm_num)]
    unfold corrector.get_posture_angles
    rw [gh, gs, ge]
    dsimp only
    rw [if_neg (by simp)]
    dsimp only
    have hv : sub3 (toR3 (1/2, 1/4, 0)) (toR3 (1/2, 3/4, 0)) = ((0:ℝ), -(1/2), (0:ℝ)) := by
      simp only [toR3, sub3, Prod.mk.injEq]
      push_cast
      norm_num
    rw [hv]
    rw [show ((0:ℝ), (-1:ℝ), (0:ℝ)) = ((0:ℝ), -(1:ℝ), (0:ℝ)) from rfl]
    rw [calculate_angle_between_vectors_parallel 1 (1/2) (by norm_num) (by norm_num)]

/-! ## Claim C6: the slouch timer -/

/-- Invariant of the slouch timer: whenever `bad_since` holds a timestamp
`t0`, the processed trace ends in an unbroken run of slouching frames whose
first frame is `(t0, true)` — unless the timer already started in state
`some t0` and every processed frame was slouching. -/
lemma slouch_run_some (l : List (ℚ × Bool)) : ∀ (st : Option ℚ) (t0 : ℚ),
    monitor_posture.slouch_run st l = some t0 →
    (∃ l1 l2, l = l1 ++ l2 ∧ l2.head? = some (t0, true) ∧ ∀ p ∈ l2, p.2 = true) ∨
    (st = some t0 ∧ ∀ p ∈ l, p.2 = true) := by
  induction l with
  | nil =>
    intro st t0 h
    right
    exact ⟨h, by simp⟩
  | cons f fs ih =>
    intro st t0 h
    obtain ⟨tf, bf⟩ := f
    rw [monitor_posture.slouch_run] at h
    rcases ih _ _ h with ⟨l1, l2, heq, hhead, hall⟩ | ⟨hst, hall⟩
    · left
      exact ⟨(tf, bf) :: l1, l2, by rw [heq]; rfl, hhead, hall⟩
    · cases hb : bf with
      | false =>
        subst hb
        simp [monitor_posture.slouch_step] at hst
      | true =>
        subst hb
        cases hst' : st with
        | none =>
          subst hst'
          simp only [monitor_posture.slouch_step] at hst
          simp at hst
          left
          refine ⟨[], (tf, true) :: fs, rfl, ?_, ?_⟩
          · rw [hst]
            rfl
          · intro p hp
            rcases List.mem_cons.mp hp with hp | hp
            · rw [hp]
            · exact hall p hp
        | some t1 =>
          subst hst'
          simp [monitor_posture.slouch_step] at hst
          right
          refine ⟨by rw [hst], ?_⟩
          intro p hp
          rcases List.mem_cons.mp hp with hp | hp
          · rw [hp]
          · exact hall p hp

/-- Claim C6: the slouch-timer alert fires only when `is_slouching` has held
on an unbroken run of frames starting at the recorded `deviation_start`
timestamp `t0` with `now - t0 > ALERT_TIME` (strictly), and a single
non-slouching frame resets the timer to the ideal state (`bad_since = None`,
`elapsed = 0`) with no alert. -/
theorem claim_C6 (pre : List (ℚ × Bool)) (t : ℚ) (bad : Bool) :
    (bad = false →
      monitor_posture.slouch_step (monitor_posture.slouch_run none pre) bad t = (none, 0) ∧
      monitor_posture.slouch_alert
        (monitor_posture.slouch_step (monitor_posture.slouch_run none pre) bad t) = false) ∧
    (monitor_posture.slouch_alert
        (monitor_posture.slouch_step (monitor_posture.slouch_run none pre) bad t) = true →
      ∃ l1 l2 t0, pre ++ [(t, bad)] = l1 ++ l2 ∧ l2.head? = some (t0, true) ∧
        (∀ p ∈ l2, p.2 = true) ∧ monitor_posture.ALERT_TIME < t - t0) := by
  constructor
  · intro hb
    rw [hb]
    exact ⟨rfl, rfl⟩
  · intro halert
    cases hb : bad with
    | false =>
      subst hb
      simp [monitor_posture.slouch_step, monitor_posture.slouch_alert] at halert
    | true =>
      subst hb
      cases hst : monitor_posture.slouch_run none pre with
      | none =>
        rw [hst] at halert
        norm_num [monitor_posture.slouch_step, monitor_posture.slouch_alert,
          monitor_posture.ALERT_TIME] at halert
      | some t0 =>
        rw [hst] at halert
        simp [monitor_posture.slouch_step, monitor_posture.slouch_alert] at halert
        rcases slouch_run_some pre none t0 hst with ⟨l1, l2, heq, hhead, hall⟩ | ⟨hcontra, _⟩
        · refine ⟨l1, l2 ++ [(t, true)], t0, ?_, ?_, ?_, halert⟩
          · rw [heq, List.append_assoc]
          · cases l2 with
            | nil => simp at hhead
            | cons a l2' => simpa using hhead
          · intro p hp
            rcases List.mem_append.mp hp with hp | hp
            · exact hall p hp
            · simp only [List.mem_singleton] at hp
              rw [hp]
        · exact absurd hcontra (by simp)

/-- Witness for C6: slouching at times `0, 3, 6`; the alert fires at `t = 6`
(elapsed `6 > 5`), and the theorem recovers the unbroken slouching run. -/
theorem claim_C6_witness :
    monitor_posture.slouch_alert
      (monitor_posture.slouch_step
        (monitor_posture.slouch_run none [((0:ℚ), true), ((3:ℚ), true)]) true 6) = true ∧
    ∃ l1 l2 t0, [((0:ℚ), true), ((3:ℚ), true)] ++ [((6:ℚ), true)] = l1 ++ l2 ∧
      l2.head? = some (t0, true) ∧ (∀ p ∈ l2, p.2 = true) ∧
      monitor_posture.ALERT_TIME < 6 - t0 := by
  have hrun : monitor_posture.slouch_run none [((0:ℚ), true), ((3:ℚ), true)] = some 0 := by
    simp [monitor_posture.slouch_run, monitor_posture.slouch_step]
  have halert : monitor_posture.slouch_alert
      (monitor_posture.slouch_step
        (monitor_posture.slouch_run none [((0:ℚ), true), ((3:ℚ), true)]) true 6) = true := by
    rw [hrun]
    norm_num [monitor_posture.slouch_step, monitor_posture.slouch_alert,
      monitor_posture.ALERT_TIME]
  exact ⟨halert, (claim_C6 [((0:ℚ), true), ((3:ℚ), true)] 6 true).2 halert⟩

/-! ## Claims C10, C8, C3: the Calibration Stabilizer -/

open calibrate_posture

lemma calStep_count_len (s : CalState) (f : FrameObs)
    (h : s.stable_frames_count = s.calibration_data.length) :
    (calStep s f).stable_frames_count = (calStep s f).calibration_data.length := by
  unfold calStep
  split
  · split
    · split
      · dsimp only
        split
        · split
          · simp [h]
          · simp
        · simp [h]
      · simp
    · simp [h]
  · simp [h]

lemma calStep_count_le (s : CalState) (f : FrameObs) :
    (calStep s f).stable_frames_count ≤ s.stable_frames_count + 1 := by
  unfold calStep
  split
  · split
    · split
      · dsimp only
        split
        · split
          · simp
          · simp
        · simp
      · simp
    · simp
  · simp

lemma dq_append_length_le (xs : List ℚ) (x : ℚ) (h : xs.length ≤ STABILITY_WINDOW) :
    (dq_append xs x).length ≤ STABILITY_WINDOW := by
  unfold dq_append
  split
  · simpa using ‹xs.length < STABILITY_WINDOW›
  · cases xs with
    | nil => simp [STABILITY_WINDOW]
    | cons a l =>
      simp only [List.tail_cons, List.length_append, List.length_singleton]
      simp only [List.length_cons] at h
      omega

lemma calStep_histBound (s : CalState) (f : FrameObs) (h : HistBound s) :
    HistBound (calStep s f) := by
  obtain ⟨h1, h2, h3⟩ := h
  unfold calStep
  split
  · split
    · split
      · dsimp only
        split
        · split
          · exact ⟨dq_append_length_le _ _ h1, dq_append_length_le _ _ h2,
              dq_append_length_le _ _ h3⟩
          · exact ⟨dq_append_length_le _ _ h1, dq_append_length_le _ _ h2,
              dq_append_length_le _ _ h3⟩
        · exact ⟨dq_append_length_le _ _ h1, dq_append_length_le _ _ h2,
            dq_append_length_le _ _ h3⟩
      · exact ⟨h1, h2, h3⟩
    · exact ⟨h1, h2, h3⟩
  · exact ⟨h1, h2, h3⟩

lemma calLoop_pres (P : CalState → Prop) (hP : ∀ s f, P s → P (calStep s f)) :
    ∀ (l : List FrameObs) (s : CalState), P s → P (calLoop s l) := by
  intro l
  induction l with
  | nil => intro s hs; exact hs
  | cons f fs ih =>
    intro s hs
    rw [calLoop]
    split
    · exact hP s f hs
    · split
      · exact hP s f hs
      · exact ih _ (hP s f hs)

lemma calLoop_count_le (l : List FrameObs) : ∀ (s : CalState),
    s.stable_frames_count < STABLE_FRAMES_REQUIRED →
    (calLoop s l).stable_frames_count ≤ STABLE_FRAMES_REQUIRED := by
  induction l with
  | nil => intro s hs; exact hs.le
  | cons f fs ih =>
    intro s hs
    rw [calLoop]
    have hle := calStep_count_le s f
    split
    · omega
    · split
      · omega
      · exact ih _ (by omega)

lemma calBreaks_false_count (l : List FrameObs) : ∀ (s : CalState),
    s.stable_frames_count < STABLE_FRAMES_REQUIRED →
    calBreaks s l = false →
    (calLoop s l).stable_frames_count < STABLE_FRAMES_REQUIRED := by
  induction l with
  | nil => intro s hs _; exact hs
  | cons f fs ih =>
    intro s hs hb
    rw [calBreaks] at hb
    rw [calLoop]
    split
    · rw [if_pos ‹f.esc = true›] at hb
      exact absurd hb (by simp)
    · rw [if_neg ‹¬ f.esc = true›] at hb
      split
      · rw [if_pos ‹STABLE_FRAMES_REQUIRED ≤ (calStep s f).stable_frames_count›] at hb
        exact absurd hb (by simp)
      · rw [if_neg ‹¬ STABLE_FRAMES_REQUIRED ≤ (calStep s f).stable_frames_count›] at hb
        exact ih _ (by omega) hb

lemma calLoop_append (l1 l2 : List FrameObs) : ∀ (s : CalState),
    calBreaks s l1 = false →
    calLoop s (l1 ++ l2) = calLoop (calLoop s l1) l2 := by
  induction l1 with
  | nil => intro s _; rfl
  | cons f fs ih =>
    intro s hb
    rw [calBreaks] at hb
    rw [List.cons_append, calLoop, calLoop]
    split
    · rw [if_pos ‹f.esc = true›] at hb
      exact absurd hb (by simp)
    · rw [if_neg ‹¬ f.esc = true›] at hb
      split
      · rw [if_pos ‹STABLE_FRAMES_REQUIRED ≤ (calStep s f).stable_frames_count›] at hb
        exact absurd hb (by simp)
      · rw [if_neg ‹¬ STABLE_FRAMES_REQUIRED ≤ (calStep s f).stable_frames_count›] at hb
        exact ih _ hb

lemma np_mean_replicate (n : ℕ) (a : ℚ) (hn : n ≠ 0) :
    np_mean (List.replicate n a) = a := by
  unfold np_mean
  rw [List.sum_replicate, List.length_replicate, nsmul_eq_mul, mul_comm,
    mul_div_assoc, div_self (Nat.cast_ne_zero.mpr hn), mul_one]

lemma np_var_replicate (n : ℕ) (a : ℚ) : np_var (List.replicate n a) = 0 := by
  cases n with
  | zero => simp [np_var]
  | succ m =>
    unfold np_var
    rw [np_mean_replicate _ _ (Nat.succ_ne_zero m), List.map_replicate]
    simp

lemma std_lt_replicate_30 (a : ℚ) :
    std_lt (List.replicate STABILITY_WINDOW a) STABILITY_THRESHOLD = true := by
  unfold std_lt
  rw [np_var_replicate]
  rw [decide_eq_true_eq]
  norm_num [STABILITY_THRESHOLD]

lemma dq_append_replicate (a : ℚ) :
    dq_append (List.replicate STABILITY_WINDOW a) a = List.replicate STABILITY_WINDOW a := by
  unfold dq_append
  rw [if_neg (by simp), List.tail_replicate, ← List.replicate_succ']
  rfl

lemma calStep_good_steady (s : CalState) (A : AngleTriple)
    (ht : s.hist_torso = List.replicate STABILITY_WINDOW A.torso_recline)
    (hn : s.hist_neck = List.replicate STABILITY_WINDOW A.neck_protraction)
    (hb : s.hist_back = List.replicate STABILITY_WINDOW A.back_curve) :
    calStep s (goodFrame A) =
      { s with is_in_position := true,
               stable_frames_count := s.stable_frames_count + 1,
               calibration_data := s.calibration_data ++ [A] } := by
  unfold calStep
  simp [goodFrame, ht, hn, hb, dq_append_replicate, std_lt_replicate_30]

lemma cal_steady (m : ℕ) : ∀ (s : CalState) (A : AngleTriple),
    s.hist_torso = List.replicate STABILITY_WINDOW A.torso_recline →
    s.hist_neck = List.replicate STABILITY_WINDOW A.neck_protraction →
    s.hist_back = List.replicate STABILITY_WINDOW A.back_curve →
    s.stable_frames_count < STABLE_FRAMES_REQUIRED →
    s.stable_frames_count = s.calibration_data.length →
    (∀ x ∈ s.calibration_data, x = A) →
    STABLE_FRAMES_REQUIRED ≤ s.stable_frames_count + m →
    (calLoop s (List.replicate m (goodFrame A))).stable_frames_count =
      STABLE_FRAMES_REQUIRED ∧
    (calLoop s (List.replicate m (goodFrame A))).calibration_data =
      List.replicate STABLE_FRAMES_REQUIRED A := by
  induction m with
  | zero =>
    intro s A _ _ _ hlt _ _ hbud
    omega
  | succ m ih =>
    intro s A ht hn hb hlt hcl hall hbud
    rw [List.replicate_succ, calLoop, calStep_good_steady s A ht hn hb]
    rw [if_neg (by simp [goodFrame])]
    by_cases hend : STABLE_FRAMES_REQUIRED ≤ s.stable_frames_count + 1
    · rw [if_pos hend]
      have hcount : s.stable_frames_count + 1 = STABLE_FRAMES_REQUIRED := by omega
      refine ⟨hcount, ?_⟩
      have hlen : (s.calibration_data ++ [A]).length = STABLE_FRAMES_REQUIRED := by
        simp [← hcl]
        omega
      refine List.eq_replicate_iff.mpr ⟨hlen, ?_⟩
      intro x hx
      rcases List.mem_append.mp hx with hx | hx
      · exact hall x hx
      · simpa using hx
    · rw [if_neg hend]
      refine ih _ A ht hn hb ?_ ?_ ?_ ?_
      · show s.stable_frames_count + 1 < STABLE_FRAMES_REQUIRED
        omega
      · show s.stable_frames_count + 1 = (s.calibration_data ++ [A]).length
        simp [← hcl]
      · intro x hx
        rcases List.mem_append.mp hx with hx | hx
        · exact hall x hx
        · simpa using hx
      · show STABLE_FRAMES_REQUIRED ≤ s.stable_frames_count + 1 + m
        omega

lemma replicate_suffix_replicate (a : ℚ) {m n : ℕ} (h : m ≤ n) :
    List.replicate m a <:+ List.replicate n a :=
  ⟨List.replicate (n - m) a, by rw [← List.replicate_add]; congr 1; omega⟩

lemma suffix_append_singleton {l xs : List ℚ} (t : ℚ) (h : l <:+ xs) :
    l ++ [t] <:+ xs ++ [t] := by
  obtain ⟨t0, ht0⟩ := h
  exact ⟨t0, by rw [← List.append_assoc, ht0]⟩

lemma suffix_tail_of_lt {l xs : List ℚ} (h : l <:+ xs) (hlen : l.length < xs.length) :
    l <:+ xs.tail := by
  obtain ⟨t, ht⟩ := h
  cases t with
  | nil =>
    rw [List.nil_append] at ht
    rw [ht] at hlen
    omega
  | cons b t' =>
    refine ⟨t', ?_⟩
    rw [← ht]
    rfl

lemma dq_append_suffix {xs : List ℚ} {a : ℚ} {k : ℕ}
    (hs : List.replicate k a <:+ xs) (hlen : xs.length ≤ STABILITY_WINDOW) :
    List.replicate (min (k + 1) STABILITY_WINDOW) a <:+ dq_append xs a := by
  unfold dq_append
  split
  · have h1 : List.replicate k a ++ [a] <:+ xs ++ [a] := suffix_append_singleton a hs
    rw [← List.replicate_succ'] at h1
    exact (replicate_suffix_replicate a (min_le_left _ _)).trans h1
  · have hx : xs.length = STABILITY_WINDOW :=
      le_antisymm hlen (not_lt.mp (by assumption))
    have hk : k ≤ STABILITY_WINDOW := by
      have := hs.length_le
      rw [List.length_replicate, hx] at this
      exact this
    have hs' : List.replicate (min k (STABILITY_WINDOW - 1)) a <:+ xs :=
      (replicate_suffix_replicate a (min_le_left _ _)).trans hs
    have hlt : (List.replicate (min k (STABILITY_WINDOW - 1)) a).length < xs.length := by
      rw [List.length_replicate, hx]
      have : (0:ℕ) < STABILITY_WINDOW := by norm_num [STABILITY_WINDOW]
      omega
    have hst := suffix_tail_of_lt hs' hlt
    have h1 : List.replicate (min k (STABILITY_WINDOW - 1)) a ++ [a] <:+ xs.tail ++ [a] :=
      suffix_append_singleton a hst
    rw [← List.replicate_succ'] at h1
    refine (replicate_suffix_replicate a ?_).trans h1
    have : (0:ℕ) < STABILITY_WINDOW := by norm_num [STABILITY_WINDOW]
    omega

lemma replicate_eq_of_suffix (a : ℚ) {xs : List ℚ}
    (h : List.replicate STABILITY_WINDOW a <:+ xs) (hlen : xs.length ≤ STABILITY_WINDOW) :
    xs = List.replicate STABILITY_WINDOW a := by
  obtain ⟨t, ht⟩ := h
  have hlt : t.length = 0 := by
    have := congrArg List.length ht
    rw [List.length_append, List.length_replicate] at this
    omega
  rw [← ht, List.length_eq_zero.mp hlt, List.nil_append]

lemma calStep_good (s : CalState) (A : AngleTriple) :
    (calStep s (goodFrame A)).hist_torso = dq_append s.hist_torso A.torso_recline ∧
    (calStep s (goodFrame A)).hist_neck = dq_append s.hist_neck A.neck_protraction ∧
    (calStep s (goodFrame A)).hist_back = dq_append s.hist_back A.back_curve ∧
    ((calStep s (goodFrame A)).stable_frames_count = s.stable_frames_count + 1 ∧
       (calStep s (goodFrame A)).calibration_data = s.calibration_data ++ [A] ∨
     (calStep s (goodFrame A)).stable_frames_count = 0 ∧
       (calStep s (goodFrame A)).calibration_data = [] ∨
     (calStep s (goodFrame A)).stable_frames_count = s.stable_frames_count ∧
       (calStep s (goodFrame A)).calibration_data = s.calibration_data) := by
  unfold calStep
  simp only [goodFrame]
  rw [if_pos trivial, if_pos trivial,
    if_pos (show (true && true && true) = true from rfl)]
  split
  · split
    · exact ⟨rfl, rfl, rfl, Or.inl ⟨rfl, rfl⟩⟩
    · exact ⟨rfl, rfl, rfl, Or.inr (Or.inl ⟨rfl, rfl⟩)⟩
  · exact ⟨rfl, rfl, rfl, Or.inr (Or.inr ⟨rfl, rfl⟩)⟩

lemma cal_fill (m : ℕ) : ∀ (k : ℕ) (s : CalState) (A : AngleTriple),
    HistSuffix s A k →
    HistBound s →
    s.stable_frames_count < STABLE_FRAMES_REQUIRED →
    s.stable_frames_count = s.calibration_data.length →
    (∀ x ∈ s.calibration_data, x = A) →
    STABILITY_WINDOW + STABLE_FRAMES_REQUIRED ≤ k + m →
    (calLoop s (List.replicate m (goodFrame A))).stable_frames_count =
      STABLE_FRAMES_REQUIRED ∧
    (calLoop s (List.replicate m (goodFrame A))).calibration_data =
      List.replicate STABLE_FRAMES_REQUIRED A := by
  induction m with
  | zero =>
    intro k s A hsuf hbound hlt hcl hall hbud
    exfalso
    have hk : k ≤ STABILITY_WINDOW := by
      have := hsuf.1.length_le
      rw [List.length_replicate] at this
      exact this.trans hbound.1
    have h75 : (0:ℕ) < STABLE_FRAMES_REQUIRED := by norm_num [STABLE_FRAMES_REQUIRED]
    omega
  | succ m ih =>
    intro k s A hsuf hbound hlt hcl hall hbud
    by_cases hk30 : STABILITY_WINDOW ≤ k
    · have ht := replicate_eq_of_suffix _
        ((replicate_suffix_replicate _ hk30).trans hsuf.1) hbound.1
      have hn := replicate_eq_of_suffix _
        ((replicate_suffix_replicate _ hk30).trans hsuf.2.1) hbound.2.1
      have hb := replicate_eq_of_suffix _
        ((replicate_suffix_replicate _ hk30).trans hsuf.2.2) hbound.2.2
      have hk : k ≤ STABILITY_WINDOW := by
        have := hsuf.1.length_le
        rw [List.length_replicate] at this
        exact this.trans hbound.1
      exact cal_steady (m + 1) s A ht hn hb hlt hcl hall (by omega)
    · push_neg at hk30
      rw [List.replicate_succ, calLoop]
      obtain ⟨e1, e2, e3, hcase⟩ := calStep_good s A
      rw [if_neg (by simp [goodFrame])]
      have hsuf1 : HistSuffix (calStep s (goodFrame A)) A (min (k + 1) STABILITY_WINDOW) := by
        refine ⟨?_, ?_, ?_⟩
        · rw [e1]; exact dq_append_suffix hsuf.1 hbound.1
        · rw [e2]; exact dq_append_suffix hsuf.2.1 hbound.2.1
        · rw [e3]; exact dq_append_suffix hsuf.2.2 hbound.2.2
      have hbound1 : HistBound (calStep s (goodFrame A)) := calStep_histBound s _ hbound
      rcases hcase with ⟨hc, hd⟩ | ⟨hc, hd⟩ | ⟨hc, hd⟩
      · by_cases hend :
          STABLE_FRAMES_REQUIRED ≤ (calStep s (goodFrame A)).stable_frames_count
        · rw [if_pos hend]
          have hcount : (calStep s (goodFrame A)).stable_frames_count =
              STABLE_FRAMES_REQUIRED := by omega
          refine ⟨hcount, ?_⟩
          refine List.eq_replicate_iff.mpr ⟨?_, ?_⟩
          · rw [hd, List.length_append, List.length_singleton, ← hcl]
            omega
          · intro x hx
            rw [hd] at hx
            rcases List.mem_append.mp hx with hx | hx
            · exact hall x hx
            · simpa using hx
        · rw [if_neg hend]
          refine ih (min (k + 1) STABILITY_WINDOW) _ A hsuf1 hbound1 (by omega) ?_ ?_ ?_
          · rw [hc, hd, List.length_append, List.length_singleton, ← hcl]
          · intro x hx
            rw [hd] at hx
            rcases List.mem_append.mp hx with hx | hx
            · exact hall x hx
            · simpa using hx
          · omega
      · rw [if_neg (by rw [hc]; norm_num [STABLE_FRAMES_REQUIRED])]
        refine ih (min (k + 1) STABILITY_WINDOW) _ A hsuf1 hbound1 ?_ ?_ ?_ ?_
        · rw [hc]; norm_num [STABLE_FRAMES_REQUIRED]
        · rw [hc, hd]; rfl
        · intro x hx
          rw [hd] at hx
          simp at hx
        · omega
      · rw [if_neg (by omega)]
        refine ih (min (k + 1) STABILITY_WINDOW) _ A hsuf1 hbound1 (by omega) ?_ ?_ ?_
        · rw [hc, hd, ← hcl]
        · intro x hx
          rw [hd] at hx
          exact hall x hx
        · omega

lemma calStep_reset (s : CalState) :
    calStep s resetFrame =
      { s with is_in_position := false, stable_frames_count := 0,
               calibration_data := [] } := by
  unfold calStep
  simp [resetFrame]

/-- After any non-breaking prefix, a framing reset followed by a constant
angle stream of `STABILITY_WINDOW + STABLE_FRAMES_REQUIRED` good frames
completes calibration with baseline exactly the constant. -/
lemma run_calibration_reset_const (pre : List FrameObs) (A : AngleTriple)
    (hpre : calBreaks initState pre = false) :
    run_calibration (pre ++ resetFrame ::
      List.replicate (STABILITY_WINDOW + STABLE_FRAMES_REQUIRED) (goodFrame A)) =
      some A := by
  have hcl0 : (calLoop initState pre).stable_frames_count =
      (calLoop initState pre).calibration_data.length :=
    calLoop_pres _ calStep_count_len pre initState rfl
  have hbound0 : HistBound (calLoop initState pre) :=
    calLoop_pres _ calStep_histBound pre initState
      (by refine ⟨?_, ?_, ?_⟩ <;> norm_num [initState, STABILITY_WINDOW])
  have hloop : calLoop initState (pre ++ resetFrame ::
      List.replicate (STABILITY_WINDOW + STABLE_FRAMES_REQUIRED) (goodFrame A)) =
      calLoop (calStep (calLoop initState pre) resetFrame)
        (List.replicate (STABILITY_WINDOW + STABLE_FRAMES_REQUIRED) (goodFrame A)) := by
    rw [calLoop_append pre _ initState hpre, calLoop]
    rw [if_neg (by simp [resetFrame])]
    rw [calStep_reset]
    rw [if_neg (by norm_num [STABLE_FRAMES_REQUIRED])]
  have hfill := cal_fill (STABILITY_WINDOW + STABLE_FRAMES_REQUIRED) 0
    (calStep (calLoop initState pre) resetFrame) A
    (by
      rw [calStep_reset]
      exact ⟨by simp, by simp, by simp⟩)
    (by rw [calStep_reset]; exact hbound0)
    (by rw [calStep_reset]; norm_num [STABLE_FRAMES_REQUIRED])
    (by rw [calStep_reset]; rfl)
    (by rw [calStep_reset]; intro x hx; simp at hx)
    (by omega)
  simp only [run_calibration]
  rw [hloop, hfill.2]
  rw [if_neg (by rw [List.length_replicate]; omega)]
  rw [List.map_replicate, List.map_replicate, List.map_replicate]
  rw [np_mean_replicate _ _ (by norm_num [STABLE_FRAMES_REQUIRED]),
    np_mean_replicate _ _ (by norm_num [STABLE_FRAMES_REQUIRED]),
    np_mean_replicate _ _ (by norm_num [STABLE_FRAMES_REQUIRED])]

/-- Claim C10: the consecutive-stable-frame counter always equals the number
of accumulated samples (`stable_frames_count == len(calibration_data)`, at
the start of every iteration: the processed prefix is arbitrary), and any
run that produces a baseline averaged exactly `STABLE_FRAMES_REQUIRED`
samples. -/
theorem claim_C10 (frames : List FrameObs) :
    (calLoop initState frames).stable_frames_count =
      (calLoop initState frames).calibration_data.length ∧
    ∀ b, run_calibration frames = some b →
      (calLoop initState frames).calibration_data.length = STABLE_FRAMES_REQUIRED := by
  have hcl : (calLoop initState frames).stable_frames_count =
      (calLoop initState frames).calibration_data.length :=
    calLoop_pres _ calStep_count_len frames initState rfl
  refine ⟨hcl, ?_⟩
  intro b hb
  simp only [run_calibration] at hb
  split at hb
  · exact absurd hb (by simp)
  · have hge : ¬ (calLoop initState frames).calibration_data.length <
        STABLE_FRAMES_REQUIRED := by assumption
    have hle : (calLoop initState frames).stable_frames_count ≤ STABLE_FRAMES_REQUIRED :=
      calLoop_count_le frames initState (by norm_num [initState, STABLE_FRAMES_REQUIRED])
    omega

/-- Witness for C10: a reset frame followed by 105 constant good frames
calibrates successfully; the counter matches the buffer length and exactly
75 samples are averaged. -/
theorem claim_C10_witness :
    (calLoop initState (resetFrame ::
        List.replicate (STABILITY_WINDOW + STABLE_FRAMES_REQUIRED)
          (goodFrame { torso_recline := 90, neck_protraction := 85, back_curve := 175 }))).stable_frames_count =
      (calLoop initState (resetFrame ::
        List.replicate (STABILITY_WINDOW + STABLE_FRAMES_REQUIRED)
          (goodFrame { torso_recline := 90, neck_protraction := 85, back_curve := 175 }))).calibration_data.length ∧
    (calLoop initState (resetFrame ::
        List.replicate (STABILITY_WINDOW + STABLE_FRAMES_REQUIRED)
          (goodFrame { torso_recline := 90, neck_protraction := 85, back_curve := 175 }))).calibration_data.length =
      STABLE_FRAMES_REQUIRED :=
  ⟨(claim_C10 _).1,
   (claim_C10 _).2 { torso_recline := 90, neck_protraction := 85, back_curve := 175 }
     (run_calibration_reset_const [] _ rfl)⟩

/-- Claim C8: whenever the loop ends with fewer consecutive stable frames
than `STABLE_FRAMES_REQUIRED` (user cancel or stream termination),
calibration fails: no baseline is produced and the baseline file is left
untouched. -/
theorem claim_C8 (frames : List FrameObs) (file0 : Option AngleTriple)
    (h : (calLoop initState frames).stable_frames_count < STABLE_FRAMES_REQUIRED) :
    run_calibration frames = none ∧ run_calibration_file frames file0 = file0 := by
  have hcl : (calLoop initState frames).stable_frames_count =
      (calLoop initState frames).calibration_data.length :=
    calLoop_pres _ calStep_count_len frames initState rfl
  have hrun : run_calibration frames = none := by
    simp only [run_calibration]
    rw [if_pos (by omega)]
  refine ⟨hrun, ?_⟩
  unfold run_calibration_file
  rw [hrun]

/-- Witness for C8: the user presses ESC on the first frame; the stale
baseline file contents survive. -/
theorem claim_C8_witness :
    run_calibration [escFrame] = none ∧
    run_calibration_file [escFrame]
      (some { torso_recline := 1, neck_protraction := 2, back_curve := 3 }) =
      some { torso_recline := 1, neck_protraction := 2, back_curve := 3 } :=
  claim_C8 [escFrame] _ (by decide)

/-- Claim C3: the produced baseline is the per-axis mean of exactly the
samples accumulated since the last counter reset — an arbitrary non-breaking
prefix of earlier frames (whose angles may be anything) followed by a
framing reset and a constant stream `A` calibrates to exactly `A`, not to a
mean involving the earlier frames. -/
theorem claim_C3 (pre : List FrameObs) (A : AngleTriple)
    (hpre : calBreaks initState pre = false) :
    run_calibration (pre ++ resetFrame ::
      List.replicate (STABILITY_WINDOW + STABLE_FRAMES_REQUIRED) (goodFrame A)) =
      some A :=
  run_calibration_reset_const pre A hpre

/-- Witness for C3 with the empty prefix and the constant triple
`(90, 85, 175)`. -/
theorem claim_C3_witness :
    run_calibration ([] ++ resetFrame ::
      List.replicate (STABILITY_WINDOW + STABLE_FRAMES_REQUIRED)
        (goodFrame { torso_recline := 90, neck_protraction := 85, back_curve := 175 })) =
      some { torso_recline := 90, neck_protraction := 85, back_curve := 175 } :=
  claim_C3 [] { torso_recline := 90, neck_protraction := 85, back_curve := 175 } rfl
